import Mathlib

/-!
Verification development for the `xdg-desktop-portal-rs` crate, a minimal
blocking D-Bus client binding for the `org.freedesktop.portal.OpenURI`
portal interface.

We shallowly embed the crate's data model and operations:
* `OpenURIOptions` with its four builder setters (`handle_token`,
  `writable`, `ask`, `activation_token`) from `src/open_uri.rs`
  (the canonical revision, with both the `spec-v3` and `spec-v4`
  feature flags enabled so all four optional fields exist);
* the conversion `impl From<OpenURIOptions> for PropMap`, modelled as
  `propMapFrom` over an association list of string keys to variants;
* the blanket `impl OpenURI for blocking::Proxy` whose four methods each
  issue one remote operation over a transport.  The transport is a
  function from remote operations to raw replies; each binding method is
  embedded as a function returning the list of remote operations issued
  together with the `Except` result, so the trace of calls is explicit.
-/

/-- Dynamically-typed variant values placed in the option map.  Only the
two payload types the crate ever boxes (`String` and `bool`) occur. -/
inductive VariantV where
  | str (s : String) : VariantV
  | boolean (b : Bool) : VariantV
deriving DecidableEq

/-- The `dbus::arg::PropMap` key-value map, embedded as an association
list of string keys to variants (insertion order kept; the crate inserts
each of its four distinct keys at most once). -/
def PropMap : Type := List (String × VariantV)

instance : DecidableEq PropMap := by
  unfold PropMap
  infer_instance

/-- Insertion into the map; the crate only ever inserts fresh keys. -/
def PropMap.insert (m : PropMap) (k : String) (v : VariantV) : PropMap :=
  List.append m [(k, v)]

/-- The empty map, `PropMap::new()`. -/
def PropMap.empty : PropMap := []

/-- Key lookup in the embedded map. -/
def PropMap.find (m : PropMap) (k : String) : Option VariantV :=
  match m with
  | [] => none
  | (k1, v1) :: rest => if k1 = k then some v1 else PropMap.find rest k

/-- The keys of the embedded map. -/
def PropMap.keys (m : PropMap) : List String :=
  m.map Prod.fst

/-- `OpenURIOptions`: optional arguments for the OpenURI methods.  Four
`Option` fields, all unset by `OpenURIOptions::new()` / `Default`.  Field
names are camel-cased so the source's setter names stay available. -/
structure OpenURIOptions where
  handleToken : Option String
  writableOpt : Option Bool
  askOpt : Option Bool
  activationToken : Option String
deriving DecidableEq

/-- `OpenURIOptions::new()`: all fields unset. -/
def OpenURIOptions.new : OpenURIOptions :=
  { handleToken := none, writableOpt := none, askOpt := none,
    activationToken := none }

/-- Setter `OpenURIOptions::handle_token`. -/
def OpenURIOptions.handle_token (o : OpenURIOptions) (v : String) :
    OpenURIOptions :=
  { o with handleToken := some v }

/-- Setter `OpenURIOptions::writable`. -/
def OpenURIOptions.writable (o : OpenURIOptions) (v : Bool) :
    OpenURIOptions :=
  { o with writableOpt := some v }

/-- Setter `OpenURIOptions::ask` (feature `spec-v3`). -/
def OpenURIOptions.ask (o : OpenURIOptions) (v : Bool) : OpenURIOptions :=
  { o with askOpt := some v }

/-- Setter `OpenURIOptions::activation_token` (feature `spec-v4`). -/
def OpenURIOptions.activation_token (o : OpenURIOptions) (v : String) :
    OpenURIOptions :=
  { o with activationToken := some v }

/-- `impl From<OpenURIOptions> for PropMap`: insert a key for each set
field, in source order, and nothing else. -/
def propMapFrom (options : OpenURIOptions) : PropMap :=
  let map := PropMap.empty
  let map := match options.handleToken with
    | some handle_token => map.insert "handle_token" (VariantV.str handle_token)
    | none => map
  let map := match options.writableOpt with
    | some writable => map.insert "writable" (VariantV.boolean writable)
    | none => map
  let map := match options.askOpt with
    | some ask => map.insert "ask" (VariantV.boolean ask)
    | none => map
  let map := match options.activationToken with
    | some activation_token =>
        map.insert "activation_token" (VariantV.str activation_token)
    | none => map
  map

/-- One call to one of the four builder setters, with its argument. -/
inductive BuildStep where
  | handle_token (v : String) : BuildStep
  | writable (v : Bool) : BuildStep
  | ask (v : Bool) : BuildStep
  | activation_token (v : String) : BuildStep
deriving DecidableEq

/-- Apply one setter call to an options value. -/
def applyStep (o : OpenURIOptions) : BuildStep → OpenURIOptions
  | BuildStep.handle_token v => o.handle_token v
  | BuildStep.writable v => o.writable v
  | BuildStep.ask v => o.ask v
  | BuildStep.activation_token v => o.activation_token v

/-- Run a chain of setter calls starting from `OpenURIOptions::new()`. -/
def build (steps : List BuildStep) : OpenURIOptions :=
  steps.foldl applyStep OpenURIOptions.new

/-- The argument of the last `handle_token` setter call in the chain, if
any such call occurs. -/
def lastHandleToken (steps : List BuildStep) : Option String :=
  steps.foldl
    (fun acc s => match s with
      | BuildStep.handle_token v => some v
      | _ => acc) none

/-- The argument of the last `writable` setter call, if any. -/
def lastWritable (steps : List BuildStep) : Option Bool :=
  steps.foldl
    (fun acc s => match s with
      | BuildStep.writable v => some v
      | _ => acc) none

/-- The argument of the last `ask` setter call, if any. -/
def lastAsk (steps : List BuildStep) : Option Bool :=
  steps.foldl
    (fun acc s => match s with
      | BuildStep.ask v => some v
      | _ => acc) none

/-- The argument of the last `activation_token` setter call, if any. -/
def lastActivationToken (steps : List BuildStep) : Option String :=
  steps.foldl
    (fun acc s => match s with
      | BuildStep.activation_token v => some v
      | _ => acc) none

/-- The `dbus::Error` value the transport can fail with: a named D-Bus
error with a message, both optional in the crate's dependency. -/
structure DbusError where
  name : Option String
  message : Option String
deriving DecidableEq

/-- The crate's `PortalError` enum: a single variant wrapping the
transport error unchanged (`#[from] dbus::Error`). -/
inductive PortalError where
  | Dbus (e : DbusError) : PortalError
deriving DecidableEq

/-- An `OwnedFd` file descriptor, identified by its raw descriptor. -/
structure OwnedFd where
  raw : Int
deriving DecidableEq

/-- One positional argument of a remote method call. -/
inductive Arg where
  | str (s : String) : Arg
  | fd (f : OwnedFd) : Arg
  | propMap (m : PropMap) : Arg
deriving DecidableEq

/-- One element of a raw reply body, as decoded by the D-Bus library. -/
inductive DbusValue where
  | str (s : String) : DbusValue
  | boolean (b : Bool) : DbusValue
  | objectPath (p : String) : DbusValue
  | u32 (n : Nat) : DbusValue
deriving DecidableEq

/-- One remote operation issued through the transport: either a method
call on an interface with a member name and positional arguments, or a
generic property read of a named property on an interface. -/
inductive RemoteOp where
  | methodCall (iface member : String) (args : List Arg) : RemoteOp
  | getProperty (iface prop : String) : RemoteOp
deriving DecidableEq

/-- The blocking transport (`dbus::blocking::BlockingSender` together
with the library's reply decoding): a function from a remote operation to
either a transport error or the raw reply body. -/
def Transport : Type := RemoteOp → Except DbusError (List DbusValue)

/-- `dbus::blocking::Proxy`: destination bus name, object path, timeout
(in milliseconds) and the borrowed connection. -/
structure Proxy where
  destination : String
  path : String
  timeout : Nat
  connection : Transport

/-- `new_blocking`: a proxy for the desktop portal bus name and object
path, carrying the caller-supplied timeout and connection. -/
def new_blocking (timeout : Nat) (connection : Transport) : Proxy :=
  { destination := "org.freedesktop.portal.Desktop",
    path := "/org/freedesktop/portal/desktop",
    timeout := timeout,
    connection := connection }

/-- The fixed interface constant `INTERFACE` of `open_uri.rs`. -/
def INTERFACE : String := "org.freedesktop.portal.OpenURI"

/-- The D-Bus error produced by the library when a reply body does not
match the expected return type (`dbus`'s argument type mismatch). -/
def typeMismatchError : DbusError :=
  { name := some "org.freedesktop.DBus.Error.InvalidArgs",
    message := some "Argument type mismatch" }

/-- Reply decoding at type `(Path,)`: the library accepts exactly a
one-element body holding an object path and fails otherwise. -/
def readPathTuple (body : List DbusValue) : Except DbusError String :=
  match body with
  | [DbusValue.objectPath p] => Except.ok p
  | _ => Except.error typeMismatchError

/-- Reply decoding of a property read at type `u32`: the library accepts
exactly a one-element body holding a `u32` and fails otherwise. -/
def readU32 (body : List DbusValue) : Except DbusError Nat :=
  match body with
  | [DbusValue.u32 n] => Except.ok n
  | _ => Except.error typeMismatchError

/-- The library's `Proxy::method_call` at return type `(Path,)`: issue
one method-call operation on the transport and decode the reply.  The
first component is the trace of remote operations issued. -/
def Proxy.method_call (p : Proxy) (iface member : String)
    (args : List Arg) : List RemoteOp × Except DbusError String :=
  let op := RemoteOp.methodCall iface member args
  ([op], (p.connection op).bind readPathTuple)

/-- The library's generic property read (`Properties::get`) at type
`u32`: issue one property-read operation and decode the reply. -/
def Proxy.getProperty (p : Proxy) (iface prop : String) :
    List RemoteOp × Except DbusError Nat :=
  let op := RemoteOp.getProperty iface prop
  ([op], (p.connection op).bind readU32)

/-- `open_uri`: one `OpenURI` method call on `INTERFACE` with positional
arguments `(parent_window, uri, PropMap::from(options))`; the reply's
single object path is the request handle, errors map into
`PortalError`. -/
def open_uri (p : Proxy) (parent_window uri : String)
    (options : OpenURIOptions) : List RemoteOp × Except PortalError String :=
  let r := p.method_call INTERFACE "OpenURI"
    [Arg.str parent_window, Arg.str uri, Arg.propMap (propMapFrom options)]
  (r.1, r.2.mapError PortalError.Dbus)

/-- `open_file`: one `OpenFile` method call on `INTERFACE` with
positional arguments `(parent_window, fd, PropMap::from(options))`. -/
def open_file (p : Proxy) (parent_window : String) (fd : OwnedFd)
    (options : OpenURIOptions) : List RemoteOp × Except PortalError String :=
  let r := p.method_call INTERFACE "OpenFile"
    [Arg.str parent_window, Arg.fd fd, Arg.propMap (propMapFrom options)]
  (r.1, r.2.mapError PortalError.Dbus)

/-- `open_directory`: one `OpenDirectory` method call on `INTERFACE`
with positional arguments `(parent_window, fd, PropMap::from(options))`. -/
def open_directory (p : Proxy) (parent_window : String) (fd : OwnedFd)
    (options : OpenURIOptions) : List RemoteOp × Except PortalError String :=
  let r := p.method_call INTERFACE "OpenDirectory"
    [Arg.str parent_window, Arg.fd fd, Arg.propMap (propMapFrom options)]
  (r.1, r.2.mapError PortalError.Dbus)

/-- `version`: one generic property read of `"version"` on `INTERFACE`,
errors mapped into `PortalError`. -/
def version (p : Proxy) : List RemoteOp × Except PortalError Nat :=
  let r := p.getProperty INTERFACE "version"
  (r.1, r.2.mapError PortalError.Dbus)

/-- Helper: `propMapFrom` looks up exactly the set fields under their
fixed key names, wrapped at their native types, and its keys never leave
the four defined names. -/
theorem propMapFrom_find (o : OpenURIOptions) :
    (propMapFrom o).find "handle_token" = o.handleToken.map VariantV.str ∧
    (propMapFrom o).find "writable" = o.writableOpt.map VariantV.boolean ∧
    (propMapFrom o).find "ask" = o.askOpt.map VariantV.boolean ∧
    (propMapFrom o).find "activation_token" = o.activationToken.map VariantV.str ∧
    ∀ k ∈ (propMapFrom o).keys,
      k = "handle_token" ∨ k = "writable" ∨ k = "ask" ∨ k = "activation_token" := by
  obtain ⟨h, w, a, t⟩ := o
  cases h <;> cases w <;> cases a <;> cases t <;>
    simp [propMapFrom, PropMap.find, PropMap.insert, PropMap.empty, PropMap.keys]

/-- Helper: folding setter calls over any start tracks, per field, the
last setter call for that field (or the start value when none occurs). -/
theorem foldl_fields (steps : List BuildStep) (o : OpenURIOptions) :
    (steps.foldl applyStep o).handleToken =
      steps.foldl (fun acc s => match s with
        | BuildStep.handle_token v => some v
        | _ => acc) o.handleToken ∧
    (steps.foldl applyStep o).writableOpt =
      steps.foldl (fun acc s => match s with
        | BuildStep.writable v => some v
        | _ => acc) o.writableOpt ∧
    (steps.foldl applyStep o).askOpt =
      steps.foldl (fun acc s => match s with
        | BuildStep.ask v => some v
        | _ => acc) o.askOpt ∧
    (steps.foldl applyStep o).activationToken =
      steps.foldl (fun acc s => match s with
        | BuildStep.activation_token v => some v
        | _ => acc) o.activationToken := by
  induction steps generalizing o with
  | nil => exact ⟨rfl, rfl, rfl, rfl⟩
  | cons s rest ih =>
    cases s <;>
      simpa [applyStep, OpenURIOptions.handle_token, OpenURIOptions.writable,
        OpenURIOptions.ask, OpenURIOptions.activation_token] using ih _

/-- Claim C1: for every chain of setter calls, the variant map produced
by converting the resulting options value contains a key exactly when the
corresponding setter was called: key `handle_token` wraps the (last) set
string, key `writable` wraps the set boolean, likewise `ask` and
`activation_token`; no key appears for an unset field and no key outside
these four names ever appears. -/
theorem variant_map_mirrors_setters (steps : List BuildStep) :
    (propMapFrom (build steps)).find "handle_token" =
      (lastHandleToken steps).map VariantV.str ∧
    (propMapFrom (build steps)).find "writable" =
      (lastWritable steps).map VariantV.boolean ∧
    (propMapFrom (build steps)).find "ask" =
      (lastAsk steps).map VariantV.boolean ∧
    (propMapFrom (build steps)).find "activation_token" =
      (lastActivationToken steps).map VariantV.str ∧
    ∀ k ∈ (propMapFrom (build steps)).keys,
      k = "handle_token" ∨ k = "writable" ∨ k = "ask" ∨ k = "activation_token" := by
  have hf := propMapFrom_find (build steps)
  have hb := foldl_fields steps OpenURIOptions.new
  exact ⟨hf.1.trans (congrArg (Option.map VariantV.str) hb.1),
    hf.2.1.trans (congrArg (Option.map VariantV.boolean) hb.2.1),
    hf.2.2.1.trans (congrArg (Option.map VariantV.boolean) hb.2.2.1),
    hf.2.2.2.1.trans (congrArg (Option.map VariantV.str) hb.2.2.2),
    hf.2.2.2.2⟩

/-- Claim C2: applying the same setter twice yields the options value in
which that field holds only the second argument; the first argument is
fully overwritten (the two-step result equals setting the second argument
once). -/
theorem setter_overwrites_previous (o : OpenURIOptions) (s1 s2 : String)
    (b1 b2 : Bool) (c1 c2 : Bool) (t1 t2 : String) :
    ((o.handle_token s1).handle_token s2 = o.handle_token s2 ∧
      ((o.handle_token s1).handle_token s2).handleToken = some s2) ∧
    ((o.writable b1).writable b2 = o.writable b2 ∧
      ((o.writable b1).writable b2).writableOpt = some b2) ∧
    ((o.ask c1).ask c2 = o.ask c2 ∧
      ((o.ask c1).ask c2).askOpt = some c2) ∧
    ((o.activation_token t1).activation_token t2 = o.activation_token t2 ∧
      ((o.activation_token t1).activation_token t2).activationToken = some t2) :=
  ⟨⟨rfl, rfl⟩, ⟨rfl, rfl⟩, ⟨rfl, rfl⟩, ⟨rfl, rfl⟩⟩

/-- Claim C9: every setter modifies only its own field; the returned
options value agrees with the input on the three other fields. -/
theorem setter_frame (o : OpenURIOptions) (s : String) (b : Bool)
    (c : Bool) (t : String) :
    ((o.handle_token s).writableOpt = o.writableOpt ∧
      (o.handle_token s).askOpt = o.askOpt ∧
      (o.handle_token s).activationToken = o.activationToken) ∧
    ((o.writable b).handleToken = o.handleToken ∧
      (o.writable b).askOpt = o.askOpt ∧
      (o.writable b).activationToken = o.activationToken) ∧
    ((o.ask c).handleToken = o.handleToken ∧
      (o.ask c).writableOpt = o.writableOpt ∧
      (o.ask c).activationToken = o.activationToken) ∧
    ((o.activation_token t).handleToken = o.handleToken ∧
      (o.activation_token t).writableOpt = o.writableOpt ∧
      (o.activation_token t).askOpt = o.askOpt) :=
  ⟨⟨rfl, rfl, rfl⟩, ⟨rfl, rfl, rfl⟩, ⟨rfl, rfl, rfl⟩, ⟨rfl, rfl, rfl⟩⟩

/-- Claim C10: the conversion to a variant map is a deterministic pure
function of the four fields: options values with pairwise equal fields
convert to equal maps, hence identical key sets and identical wrapped
values, with no dependence on outside state. -/
theorem propMapFrom_deterministic (o1 o2 : OpenURIOptions)
    (h1 : o1.handleToken = o2.handleToken)
    (h2 : o1.writableOpt = o2.writableOpt)
    (h3 : o1.askOpt = o2.askOpt)
    (h4 : o1.activationToken = o2.activationToken) :
    propMapFrom o1 = propMapFrom o2 ∧
    (propMapFrom o1).keys = (propMapFrom o2).keys ∧
    ∀ k, (propMapFrom o1).find k = (propMapFrom o2).find k := by
  obtain ⟨a1, b1, c1, d1⟩ := o1
  obtain ⟨a2, b2, c2, d2⟩ := o2
  cases h1; cases h2; cases h3; cases h4
  exact ⟨rfl, rfl, fun _ => rfl⟩

/-- Witness for C10 at two concretely built options values with equal
fields. -/
theorem propMapFrom_deterministic_witness :
    propMapFrom (build [BuildStep.ask false, BuildStep.ask true]) =
      propMapFrom (OpenURIOptions.new.ask true) :=
  (propMapFrom_deterministic (build [BuildStep.ask false, BuildStep.ask true])
    (OpenURIOptions.new.ask true) (by decide) (by decide) (by decide)
    (by decide)).1

/-- Claim C7: `new_blocking` returns a proxy whose destination is the
fixed portal bus name and whose object path is the fixed portal path,
carrying the caller-supplied timeout and connection unchanged; the
construction is a pure record build issuing no remote operation. -/
theorem new_blocking_spec (t : Nat) (c : Transport) :
    (new_blocking t c).destination = "org.freedesktop.portal.Desktop" ∧
    (new_blocking t c).path = "/org/freedesktop/portal/desktop" ∧
    (new_blocking t c).timeout = t ∧
    (new_blocking t c).connection = c :=
  ⟨rfl, rfl, rfl, rfl⟩

/-- Claim C3: `open_uri` issues exactly one remote method call, named
`OpenURI` on interface `org.freedesktop.portal.OpenURI`, with positional
arguments `(parent_window, uri, variant map of the options)`, and on a
reply whose tuple holds a single object path it returns that path as the
request handle. -/
theorem open_uri_spec (p : Proxy) (parent_window uri : String)
    (options : OpenURIOptions) :
    (open_uri p parent_window uri options).1 =
      [RemoteOp.methodCall "org.freedesktop.portal.OpenURI" "OpenURI"
        [Arg.str parent_window, Arg.str uri,
         Arg.propMap (propMapFrom options)]] ∧
    ∀ handle : String,
      p.connection (RemoteOp.methodCall "org.freedesktop.portal.OpenURI"
          "OpenURI" [Arg.str parent_window, Arg.str uri,
            Arg.propMap (propMapFrom options)]) =
        Except.ok [DbusValue.objectPath handle] →
      (open_uri p parent_window uri options).2 = Except.ok handle := by
  refine ⟨rfl, fun handle hreply => ?_⟩
  simp [open_uri, Proxy.method_call, INTERFACE, hreply, readPathTuple,
    Except.bind, Except.mapError]

/-- A transport that replies to every operation with a single object
path, for exercising the success case of the remote calls. -/
def okHandleTransport : Transport :=
  fun _ => Except.ok [DbusValue.objectPath "/org/freedesktop/portal/desktop/request/1"]

/-- Witness for C3 on a concrete proxy, parent window, uri and options. -/
theorem open_uri_spec_witness :
    (open_uri (new_blocking 2000 okHandleTransport) ""
        "https://example.com" OpenURIOptions.new).2 =
      Except.ok "/org/freedesktop/portal/desktop/request/1" :=
  (open_uri_spec (new_blocking 2000 okHandleTransport) ""
    "https://example.com" OpenURIOptions.new).2
    "/org/freedesktop/portal/desktop/request/1" rfl

/-- Claim C4: `open_file` issues one `OpenFile` call and `open_directory`
issues one `OpenDirectory` call, both on `org.freedesktop.portal.OpenURI`
with positional arguments `(parent_window, fd, variant map of the
options)`, each returning on success the single object-path element of
the reply as the request handle. -/
theorem open_file_directory_spec (p : Proxy) (parent_window : String)
    (fd : OwnedFd) (options : OpenURIOptions) :
    ((open_file p parent_window fd options).1 =
      [RemoteOp.methodCall "org.freedesktop.portal.OpenURI" "OpenFile"
        [Arg.str parent_window, Arg.fd fd,
         Arg.propMap (propMapFrom options)]] ∧
     ∀ handle : String,
       p.connection (RemoteOp.methodCall "org.freedesktop.portal.OpenURI"
           "OpenFile" [Arg.str parent_window, Arg.fd fd,
             Arg.propMap (propMapFrom options)]) =
         Except.ok [DbusValue.objectPath handle] →
       (open_file p parent_window fd options).2 = Except.ok handle) ∧
    ((open_directory p parent_window fd options).1 =
      [RemoteOp.methodCall "org.freedesktop.portal.OpenURI" "OpenDirectory"
        [Arg.str parent_window, Arg.fd fd,
         Arg.propMap (propMapFrom options)]] ∧
     ∀ handle : String,
       p.connection (RemoteOp.methodCall "org.freedesktop.portal.OpenURI"
           "OpenDirectory" [Arg.str parent_window, Arg.fd fd,
             Arg.propMap (propMapFrom options)]) =
         Except.ok [DbusValue.objectPath handle] →
       (open_directory p parent_window fd options).2 = Except.ok handle) := by
  refine ⟨⟨rfl, fun handle hreply => ?_⟩, ⟨rfl, fun handle hreply => ?_⟩⟩ <;>
    simp [open_file, open_directory, Proxy.method_call, INTERFACE, hreply,
      readPathTuple, Except.bind, Except.mapError]

/-- Witness for C4 on a concrete proxy, file descriptor and options. -/
theorem open_file_directory_spec_witness :
    (open_file (new_blocking 2000 okHandleTransport) "" (OwnedFd.mk 7)
        OpenURIOptions.new).2 =
      Except.ok "/org/freedesktop/portal/desktop/request/1" ∧
    (open_directory (new_blocking 2000 okHandleTransport) "" (OwnedFd.mk 7)
        OpenURIOptions.new).2 =
      Except.ok "/org/freedesktop/portal/desktop/request/1" :=
  ⟨(open_file_directory_spec (new_blocking 2000 okHandleTransport) ""
      (OwnedFd.mk 7) OpenURIOptions.new).1.2
      "/org/freedesktop/portal/desktop/request/1" rfl,
   (open_file_directory_spec (new_blocking 2000 okHandleTransport) ""
      (OwnedFd.mk 7) OpenURIOptions.new).2.2
      "/org/freedesktop/portal/desktop/request/1" rfl⟩

/-- Claim C5: `version` performs a generic property read (a
`getProperty` operation, not a method call) of the property `version` on
interface `org.freedesktop.portal.OpenURI`, passes no other arguments,
performs no other remote operation, and returns the resulting unsigned
32-bit integer. -/
theorem version_spec (p : Proxy) :
    (version p).1 =
      [RemoteOp.getProperty "org.freedesktop.portal.OpenURI" "version"] ∧
    ∀ n : Nat,
      p.connection (RemoteOp.getProperty "org.freedesktop.portal.OpenURI"
          "version") = Except.ok [DbusValue.u32 n] →
      (version p).2 = Except.ok n := by
  refine ⟨rfl, fun n hreply => ?_⟩
  simp [version, Proxy.getProperty, INTERFACE, hreply, readU32,
    Except.bind, Except.mapError]

/-- A transport that replies to every operation with the single `u32`
value 4, for exercising the property read. -/
def u32Transport : Transport :=
  fun _ => Except.ok [DbusValue.u32 4]

/-- Witness for C5 on a concrete proxy. -/
theorem version_spec_witness :
    (version (new_blocking 2000 u32Transport)).2 = Except.ok 4 :=
  (version_spec (new_blocking 2000 u32Transport)).2 4 rfl

/-- Helper: mapping `PortalError.Dbus` over an `Except` result yields an
error exactly when the input is that error, wrapped unchanged, and a
success exactly when the input is that success. -/
theorem mapError_Dbus_cases {α : Type} (r : Except DbusError α) :
    (∀ e : DbusError,
      r.mapError PortalError.Dbus = Except.error (PortalError.Dbus e) ↔
        r = Except.error e) ∧
    (∀ v : α, r.mapError PortalError.Dbus = Except.ok v ↔ r = Except.ok v) := by
  cases r <;> simp [Except.mapError]

/-- Claim C6: each of the four operations returns an error exactly when
the underlying library call does, with the transport error wrapped into
`PortalError.Dbus` unchanged, and returns a handle or version value
exactly when the library call succeeds — so every error originates in
the transport call and no partial result exists. -/
theorem uniform_error_wrapping (p : Proxy) (parent_window uri : String)
    (fd : OwnedFd) (options : OpenURIOptions) :
    ((∀ e : DbusError,
        (open_uri p parent_window uri options).2 =
            Except.error (PortalError.Dbus e) ↔
          (p.method_call "org.freedesktop.portal.OpenURI" "OpenURI"
            [Arg.str parent_window, Arg.str uri,
             Arg.propMap (propMapFrom options)]).2 = Except.error e) ∧
     (∀ handle : String,
        (open_uri p parent_window uri options).2 = Except.ok handle ↔
          (p.method_call "org.freedesktop.portal.OpenURI" "OpenURI"
            [Arg.str parent_window, Arg.str uri,
             Arg.propMap (propMapFrom options)]).2 = Except.ok handle)) ∧
    ((∀ e : DbusError,
        (open_file p parent_window fd options).2 =
            Except.error (PortalError.Dbus e) ↔
          (p.method_call "org.freedesktop.portal.OpenURI" "OpenFile"
            [Arg.str parent_window, Arg.fd fd,
             Arg.propMap (propMapFrom options)]).2 = Except.error e) ∧
     (∀ handle : String,
        (open_file p parent_window fd options).2 = Except.ok handle ↔
          (p.method_call "org.freedesktop.portal.OpenURI" "OpenFile"
            [Arg.str parent_window, Arg.fd fd,
             Arg.propMap (propMapFrom options)]).2 = Except.ok handle)) ∧
    ((∀ e : DbusError,
        (open_directory p parent_window fd options).2 =
            Except.error (PortalError.Dbus e) ↔
          (p.method_call "org.freedesktop.portal.OpenURI" "OpenDirectory"
            [Arg.str parent_window, Arg.fd fd,
             Arg.propMap (propMapFrom options)]).2 = Except.error e) ∧
     (∀ handle : String,
        (open_directory p parent_window fd options).2 = Except.ok handle ↔
          (p.method_call "org.freedesktop.portal.OpenURI" "OpenDirectory"
            [Arg.str parent_window, Arg.fd fd,
             Arg.propMap (propMapFrom options)]).2 = Except.ok handle)) ∧
    ((∀ e : DbusError,
        (version p).2 = Except.error (PortalError.Dbus e) ↔
          (p.getProperty "org.freedesktop.portal.OpenURI" "version").2 =
            Except.error e) ∧
     (∀ n : Nat,
        (version p).2 = Except.ok n ↔
          (p.getProperty "org.freedesktop.portal.OpenURI" "version").2 =
            Except.ok n)) :=
  ⟨⟨(mapError_Dbus_cases _).1, (mapError_Dbus_cases _).2⟩,
   ⟨(mapError_Dbus_cases _).1, (mapError_Dbus_cases _).2⟩,
   ⟨(mapError_Dbus_cases _).1, (mapError_Dbus_cases _).2⟩,
   ⟨(mapError_Dbus_cases _).1, (mapError_Dbus_cases _).2⟩⟩

/-- A D-Bus error value standing for a failed transport round-trip. -/
def failedErr : DbusError :=
  { name := some "org.freedesktop.DBus.Error.Failed",
    message := some "connection closed" }

/-- A transport on which every operation fails with `failedErr`. -/
def failingTransport : Transport := fun _ => Except.error failedErr

/-- Witness for C6: on a concretely failing transport, `open_uri`
surfaces exactly the wrapped transport error. -/
theorem uniform_error_wrapping_witness :
    (open_uri (new_blocking 2000 failingTransport) "" "https://example.com"
        OpenURIOptions.new).2 = Except.error (PortalError.Dbus failedErr) :=
  ((uniform_error_wrapping (new_blocking 2000 failingTransport) ""
      "https://example.com" (OwnedFd.mk 7)
      OpenURIOptions.new).1.1 failedErr).mpr rfl

/-- Claim C8: for every uri string — in particular any uri beginning with
`file://` — `open_uri` performs no client-side validation: it issues the
single remote call carrying the uri argument verbatim as the second
positional argument, and its result is exactly the transport's response
to that call (decoded and wrapped), so any rejection originates in the
remote reply. -/
theorem open_uri_passthrough (p : Proxy) (parent_window uri : String)
    (options : OpenURIOptions) :
    open_uri p parent_window uri options =
      ([RemoteOp.methodCall "org.freedesktop.portal.OpenURI" "OpenURI"
          [Arg.str parent_window, Arg.str uri,
           Arg.propMap (propMapFrom options)]],
       ((p.connection (RemoteOp.methodCall "org.freedesktop.portal.OpenURI"
           "OpenURI" [Arg.str parent_window, Arg.str uri,
             Arg.propMap (propMapFrom options)])).bind
         readPathTuple).mapError PortalError.Dbus) :=
  rfl

/-- Witness for C1 at a concrete setter chain: the map holds the set
handle token, omits the unset `ask` key, and a concrete present key is
among the four defined names. -/
theorem variant_map_mirrors_setters_witness :
    (propMapFrom (build [BuildStep.handle_token "tok", BuildStep.writable true])).find
        "handle_token" = some (VariantV.str "tok") ∧
    (propMapFrom (build [BuildStep.handle_token "tok", BuildStep.writable true])).find
        "ask" = none ∧
    ("handle_token" = "handle_token" ∨ "handle_token" = "writable" ∨
      "handle_token" = "ask" ∨ "handle_token" = "activation_token") :=
  ⟨(variant_map_mirrors_setters
      [BuildStep.handle_token "tok", BuildStep.writable true]).1,
   (variant_map_mirrors_setters
      [BuildStep.handle_token "tok", BuildStep.writable true]).2.2.1,
   (variant_map_mirrors_setters
      [BuildStep.handle_token "tok", BuildStep.writable true]).2.2.2.2
      "handle_token" (by decide)⟩
